import Mathlib

/-!
Shallow embedding of the product query/filter engine of the catalog
application (server routes `registerRoutes` and storage class
`DatabaseStorage` in `server/routes.ts`), together with theorems settling
the specification claims about it.

The embedding translates:
* the `GET /api/products` handler's parameter parsing and range
  validation (lines 11-80 of the source) into `parseProductsQuery`;
* `DatabaseStorage.getProducts` (lines 280-410) into the row/count
  semantics `fanoutRows` / `totalCount` and the execution relation
  `GetProductsSpec` (the SQL `ORDER BY` determines the row order only up
  to permutation of rows tied on the sort column, so the executed result
  is a relation, not a function);
* `DatabaseStorage.createProduct`, `updateProduct`, `deleteProduct`
  (lines 433-481) into explicit state-passing functions; `updateProduct`
  is additionally split into its sequence of individually-awaited
  database statements (`updateProductOps` / `runOps`) because the source
  wraps them in no transaction, so the state after every committed
  statement is an observation point.

Strings, rational numbers and integers stand for SQL text, numeric and
integer/timestamp columns.
-/

/-- A JavaScript `number` as it occurs in this code path: `NaN`, the two
infinities, or a finite value (modelled exactly as a rational; the finite
doubles produced by parsing the short decimal strings involved here are
exact). -/
inductive JsNum where
  | nan
  | inf
  | negInf
  | fin (q : ℚ)
deriving DecidableEq, Repr

/-- JavaScript `<` on numbers: any comparison with `NaN` is false. -/
def jsLt : JsNum → JsNum → Bool
  | .nan, _ => false
  | _, .nan => false
  | .negInf, .negInf => false
  | .negInf, _ => true
  | _, .negInf => false
  | .inf, _ => false
  | .fin _, .inf => true
  | .fin a, .fin b => decide (a < b)

/-- JavaScript `>` on numbers. -/
def jsGt (a b : JsNum) : Bool := jsLt b a

/-- JavaScript `isNaN` on an already-converted number. -/
def jsIsNaN : JsNum → Bool
  | .nan => true
  | _ => false

/-- Whitespace accepted by the JavaScript numeric parsers. -/
def jsIsWs (c : Char) : Bool := c = ' ' ∨ c = '\t' ∨ c = '\n' ∨ c = '\r'

/-- Numeric value of a run of decimal digits. -/
def digitsToNat (ds : List Char) : ℕ :=
  ds.foldl (fun acc c => 10 * acc + (c.toNat - '0'.toNat)) 0

/-- Models the JavaScript `parseFloat` builtin on the forms this API can
receive: optional whitespace, optional sign, then either the literal
`Infinity` or a decimal literal `digits[.digits]` / `.digits`; trailing
characters are ignored; if no number can be read the result is `NaN`.
(Exponent notation is not modelled; no claim depends on it.) -/
def jsParseFloat (s : String) : JsNum :=
  let cs := s.toList.dropWhile jsIsWs
  let (neg, cs) :=
    match cs with
    | '-' :: rest => (true, rest)
    | '+' :: rest => (false, rest)
    | _ => (false, cs)
  if ("Infinity".toList).isPrefixOf cs then
    if neg then .negInf else .inf
  else
    let intDigits := cs.takeWhile Char.isDigit
    let rest := cs.dropWhile Char.isDigit
    let fracDigits :=
      match rest with
      | '.' :: afterDot => afterDot.takeWhile Char.isDigit
      | _ => []
    if intDigits = [] ∧ fracDigits = [] then .nan
    else
      let mag : ℚ :=
        if fracDigits = [] then (digitsToNat intDigits : ℚ)
        else
          (digitsToNat intDigits : ℚ) +
            (digitsToNat fracDigits : ℚ) / ((10 : ℚ) ^ fracDigits.length)
      .fin (if neg then -mag else mag)

/-- Models the JavaScript `parseInt` builtin (radix 10): optional
whitespace, optional sign, then leading decimal digits; trailing
characters are ignored; no digits means `NaN` (`none` here). -/
def jsParseIntQ (s : String) : Option ℤ :=
  let cs := s.toList.dropWhile jsIsWs
  let (neg, cs) :=
    match cs with
    | '-' :: rest => (true, rest)
    | '+' :: rest => (false, rest)
    | _ => (false, cs)
  let ds := cs.takeWhile Char.isDigit
  if ds = [] then none
  else some (if neg then -(digitsToNat ds : ℤ) else (digitsToNat ds : ℤ))

/-- `parseInt(x) || d` applied to an optional raw string, as in
`parseInt(req.query.page as string) || 1`: an absent parameter parses to
`NaN`, and both `NaN` and `0` are falsy, selecting the default. -/
def jsParseIntOr (raw : Option String) (d : ℤ) : ℤ :=
  match raw with
  | none => d
  | some s =>
    match jsParseIntQ s with
    | none => d
    | some n => if n = 0 then d else n

/-- `(x as string) || d` for an optional raw string: absent and empty
strings are falsy. -/
def jsStrOr (raw : Option String) (d : String) : String :=
  match raw with
  | none => d
  | some s => if s = "" then d else s

/-- `x ? parseInt(x) : undefined`, with `parseInt`'s `NaN` kept as a
JavaScript number (`JsNum.nan`) because the route inspects it with
`isNaN`. -/
def jsParseIntNumOpt (raw : Option String) : Option JsNum :=
  match raw with
  | none => none
  | some s =>
    if s = "" then none
    else some (match jsParseIntQ s with
      | none => .nan
      | some n => .fin (n : ℚ))

/-- `x ? parseFloat(x) : undefined`. -/
def jsParseFloatOpt (raw : Option String) : Option JsNum :=
  match raw with
  | none => none
  | some s => if s = "" then none else some (jsParseFloat s)

example : jsParseFloat "Infinity" = .inf := by decide
example : jsParseFloat "10" = .fin 10 := by decide
example : jsParseFloat "-3" = .fin (-3) := by decide
example : jsParseFloat "abc" = .nan := by decide
example : jsParseIntQ "-5" = some (-5) := by decide
example : jsParseIntOr (some "0") 1 = 1 := by decide
example : jsParseIntOr (some "-5") 1 = -5 := by decide
example : jsParseIntOr none 10 = 10 := by decide

/-! ## Data model

The three tables touched by the product query engine (`products`,
`categories`, `productCategories` of the shared schema). Text columns are
`String`, the `numeric` price column is `ℚ`, integer and timestamp
columns are `ℤ`. -/

/-- A row of the `products` table, in the column shape selected by
`getProducts` (id, name, description, price, stockQuantity, imageUrl,
createdAt, updatedAt). -/
structure Product where
  id : String
  name : String
  description : Option String
  price : ℚ
  stockQuantity : ℤ
  imageUrl : Option String
  createdAt : ℤ
  updatedAt : ℤ
deriving DecidableEq, Repr

/-- A row of the `categories` table. -/
structure Category where
  id : String
  name : String
  createdAt : ℤ
deriving DecidableEq, Repr

/-- A row of the `productCategories` association table. -/
structure Assoc where
  productId : String
  categoryId : String
deriving DecidableEq, Repr

/-- The relational store: the three tables as row lists (list order is
the table's internal order, which no claim depends on). -/
structure StoreState where
  products : List Product
  categories : List Category
  assocs : List Assoc
deriving DecidableEq, Repr

/-- The association rows of one product. -/
def assocsOf (s : StoreState) (pid : String) : List Assoc :=
  s.assocs.filter (fun a => decide (a.productId = pid))

/-! ## Route-level parameter parsing (`GET /api/products`)

Embedding of lines 11-73 of `registerRoutes`: numeric parsing with the
JavaScript builtins, the price/stock range validation, and the
normalization of `categoryIds`. -/

/-- An Express query value for `categoryIds`, which the handler reads as
`string | string[]`. -/
inductive QueryVal where
  | str (s : String)
  | arr (l : List String)
deriving DecidableEq, Repr

/-- The raw query string of a `GET /api/products` request; `none` is an
absent parameter. -/
structure RawQuery where
  page : Option String := none
  limit : Option String := none
  search : Option String := none
  categoryId : Option String := none
  sortBy : Option String := none
  sortOrder : Option String := none
  categoryIds : Option QueryVal := none
  minPrice : Option String := none
  maxPrice : Option String := none
  minStock : Option String := none
  maxStock : Option String := none

/-- The argument record passed to `storage.getProducts` (the route casts
`sortBy`/`sortOrder` with `as any`, so they stay unvalidated strings). -/
structure GetProductsParams where
  page : ℤ := 1
  limit : ℤ := 10
  search : Option String := none
  categoryId : Option String := none
  categoryIds : Option (List String) := none
  minPrice : Option JsNum := none
  maxPrice : Option JsNum := none
  minStock : Option JsNum := none
  maxStock : Option JsNum := none
  sortBy : String := "createdAt"
  sortOrder : String := "desc"
deriving DecidableEq, Repr

/-- Lines 50-59: normalize `categoryIds` into an array — a supplied array
is filtered to non-blank entries (an empty array is truthy and yields an
empty result array); a string containing a comma is split, trimmed and
filtered; any other non-blank string becomes a singleton; otherwise the
variable stays `undefined`. -/
def buildCategoryIdsArray : Option QueryVal → Option (List String)
  | none => none
  | some (.arr l) => some (l.filter (fun id => !decide (id = "") && !decide (id.trim = "")))
  | some (.str s) =>
    if s = "" then none
    else if s.contains ',' then
      some (((s.splitOn ",").map String.trim).filter (fun id => !decide (id = "")))
    else if s.trim ≠ "" then some [s.trim]
    else none

/-- A supplied number fails validation when it is `NaN` or negative
(lines 28, 31, 39, 42). -/
def invalidNum (n : JsNum) : Bool := jsIsNaN n || jsLt n (.fin 0)

/-- Lines 13-73 of the `GET /api/products` handler: parse all query
parameters, run the price-range and stock-range validations in source
order, and either return the 400 response message (`Except.error`) or
the argument record handed to `storage.getProducts` (`Except.ok`). -/
def parseProductsQuery (q : RawQuery) : Except String GetProductsParams :=
  let page := jsParseIntOr q.page 1
  let limit := jsParseIntOr q.limit 10
  let sortBy := jsStrOr q.sortBy "createdAt"
  let sortOrder := jsStrOr q.sortOrder "desc"
  let minPrice := jsParseFloatOpt q.minPrice
  let maxPrice := jsParseFloatOpt q.maxPrice
  let minStock := jsParseIntNumOpt q.minStock
  let maxStock := jsParseIntNumOpt q.maxStock
  if minPrice.any invalidNum then .error "Invalid minPrice value"
  else if maxPrice.any invalidNum then .error "Invalid maxPrice value"
  else if match minPrice, maxPrice with
          | some a, some b => jsGt a b
          | _, _ => false then .error "minPrice cannot be greater than maxPrice"
  else if minStock.any invalidNum then .error "Invalid minStock value"
  else if maxStock.any invalidNum then .error "Invalid maxStock value"
  else if match minStock, maxStock with
          | some a, some b => jsGt a b
          | _, _ => false then .error "minStock cannot be greater than maxStock"
  else .ok {
    page := page
    limit := limit
    search := q.search
    categoryId := q.categoryId
    categoryIds := buildCategoryIdsArray q.categoryIds
    minPrice := minPrice
    maxPrice := maxPrice
    minStock := minStock
    maxStock := maxStock
    sortBy := sortBy
    sortOrder := sortOrder
  }

example : parseProductsQuery { minPrice := some "10", maxPrice := some "5" }
    = .error "minPrice cannot be greater than maxPrice" := rfl
example : parseProductsQuery { minPrice := some "abc" }
    = .error "Invalid minPrice value" := rfl
example : (parseProductsQuery { page := some "-5" }).isOk = true := by decide

/-! ## Storage read path (`DatabaseStorage.getProducts`)

Embedding of lines 280-410. The row query selects the product columns
`FROM products`, adds an `INNER JOIN productCategories` when a category
filter applies, applies the conjunction of the pushed conditions, orders
by the single chosen column and applies `LIMIT`/`OFFSET`. The count
query is `count(distinct products.id)` over the same joined, filtered
row set. -/

/-- The sort-column lookup object of lines 366-371; a `sortBy` value
outside the four keys yields `undefined` (`none`), which the source then
feeds to `asc`/`desc` — such a query has no valid execution. -/
inductive SortCol where
  | name
  | price
  | stock
  | createdAt
deriving DecidableEq, Repr

/-- `{ name: products.name, price: products.price, stock:
products.stockQuantity, createdAt: products.createdAt }[sortBy]`. -/
def sortColumnOf : String → Option SortCol
  | "name" => some .name
  | "price" => some .price
  | "stock" => some .stock
  | "createdAt" => some .createdAt
  | _ => none

/-- Comparison of two product rows on one sort column, ascending
(SQL `ORDER BY col ASC` admits `p` before `q` iff `keyLe col p q`). -/
def keyLe (c : SortCol) (p q : Product) : Prop :=
  match c with
  | .name => p.name ≤ q.name
  | .price => p.price ≤ q.price
  | .stock => p.stockQuantity ≤ q.stockQuantity
  | .createdAt => p.createdAt ≤ q.createdAt

instance (c : SortCol) (p q : Product) : Decidable (keyLe c p q) := by
  cases c <;> {dsimp [keyLe]; infer_instance}

/-- The ordering constraint imposed by lines 373-377: `asc(col)` when
`sortOrder === 'asc'`, otherwise `desc(col)`. -/
def ordRel (c : SortCol) (ord : String) (p q : Product) : Prop :=
  if ord = "asc" then keyLe c p q else keyLe c q p

instance (c : SortCol) (ord : String) (p q : Product) : Decidable (ordRel c ord p q) := by
  unfold ordRel; split <;> infer_instance

/-- `categoryId ? [categoryId] : null` (the fallback of line 348). -/
def singleCategoryOf : Option String → Option (List String)
  | some c => if c ≠ "" then some [c] else none
  | none => none

/-- Line 348: `categoryIds?.length ? categoryIds : (categoryId ?
[categoryId] : null)` — the plural list wins when truthy (non-empty),
else a truthy (non-blank) single id becomes a singleton. -/
def categoriesToFilter (categoryId : Option String) (categoryIds : Option (List String)) :
    Option (List String) :=
  match categoryIds with
  | some l => if l ≠ [] then some l else singleCategoryOf categoryId
  | none => singleCategoryOf categoryId

/-- Line 349's guard `categoriesToFilter && categoriesToFilter.length >
0`: the category filter actually applied to the query. -/
def catFilter (params : GetProductsParams) : Option (List String) :=
  match categoriesToFilter params.categoryId params.categoryIds with
  | some l => if l ≠ [] then some l else none
  | none => none

/-- Case-insensitive containment, embedding `ilike(products.name,
'%search%')`. (SQL wildcard characters inside the search term itself are
not modelled; no claim exercises them.) -/
def ilikeContains (name pat : String) : Bool :=
  let hay := name.toList.map Char.toLower
  let needle := pat.toList.map Char.toLower
  (List.range (hay.length + 1)).any (fun i => needle.isPrefixOf (hay.drop i))

/-- `numeric`-column comparison `q >= n` for a bound parameter `n`
(PostgreSQL numeric ordering: `NaN` sorts above every number). The `NaN`
cases are unreachable through the route, which rejects `NaN` bounds. -/
def pgGeNum (q : ℚ) (n : JsNum) : Bool :=
  match n with
  | .nan => false
  | .inf => false
  | .negInf => true
  | .fin a => decide (a ≤ q)

/-- `numeric`-column comparison `q <= n`. -/
def pgLeNum (q : ℚ) (n : JsNum) : Bool :=
  match n with
  | .nan => true
  | .inf => true
  | .negInf => false
  | .fin a => decide (q ≤ a)

/-- The conjunction of the non-category conditions pushed in lines
327-345, evaluated on one product row: the `ilike` search (pushed only
when `search` is truthy), and the four inclusive range conditions. -/
def prodConds (params : GetProductsParams) (p : Product) : Bool :=
  (match params.search with
   | some s => if s ≠ "" then ilikeContains p.name s else true
   | none => true)
  && (match params.minPrice with
      | some n => pgGeNum p.price n
      | none => true)
  && (match params.maxPrice with
      | some n => pgLeNum p.price n
      | none => true)
  && (match params.minStock with
      | some n => pgGeNum (p.stockQuantity : ℚ) n
      | none => true)
  && (match params.maxStock with
      | some n => pgLeNum (p.stockQuantity : ℚ) n
      | none => true)

/-- The multiset of product rows produced by the row query before
ordering and the `LIMIT`/`OFFSET` window. With a category filter the
query is the inner join, so each product appears once per qualifying
association row (the source selects the product columns without
`DISTINCT`); without one it is the filtered product table. -/
def fanoutRows (s : StoreState) (params : GetProductsParams) : List Product :=
  match catFilter params with
  | some l =>
    s.products.flatMap (fun p =>
      (s.assocs.filter (fun a =>
        decide (a.productId = p.id) && decide (a.categoryId ∈ l) && prodConds params p)).map
        (fun _ => p))
  | none => s.products.filter (prodConds params)

/-- The count query of lines 321-323: `count(distinct products.id)` over
the same joined, filtered row set. -/
def totalCount (s : StoreState) (params : GetProductsParams) : ℕ :=
  ((fanoutRows s params).map (·.id)).dedup.length

/-- `res` is a possible response of the executed `getProducts` query on
store `s`: some ordering of the filtered (fan-out) rows satisfying the
single-column `ORDER BY` — ties on that column are unconstrained — is
windowed by `OFFSET (page-1)*limit` / `LIMIT limit`, and the total is
the distinct-id count. PostgreSQL rejects negative `LIMIT`/`OFFSET`, so
a valid execution also requires both to be non-negative. -/
def GetProductsSpec (s : StoreState) (params : GetProductsParams)
    (res : List Product × ℕ) : Prop :=
  ∃ col, sortColumnOf params.sortBy = some col ∧
    0 ≤ params.limit ∧ 0 ≤ (params.page - 1) * params.limit ∧
    ∃ sorted, sorted.Perm (fanoutRows s params) ∧
      List.Sorted (ordRel col params.sortOrder) sorted ∧
      res.1 = (sorted.drop ((params.page - 1) * params.limit).toNat).take params.limit.toNat ∧
      res.2 = totalCount s params

/-! ## Write path (`createProduct`, `updateProduct`, `deleteProduct`)

The source issues each database statement as a separately-awaited call
with no `db.transaction` wrapper, so each statement commits on its own
and every inter-statement state is observable. `updateProduct` is
therefore embedded as the list of statements it issues (`updateProductOps`)
plus a sequential runner (`runOps`); a failing statement rolls back only
itself, leaving the statements already issued committed. -/

/-- A store-level failure. -/
inductive DbErr where
  | uniqueViolation
deriving DecidableEq, Repr

/-- Modelled from the spec: the association table's composite uniqueness
on `(productId, categoryId)` (§6: "association table with composite
uniqueness on (productId, categoryId)"). The schema module declaring the
table is not among the provided sources, so the constraint is taken from
the spec. A batch `INSERT` whose rows collide with each other or with
existing rows violates the constraint and the statement fails. -/
def insertAssocRows (tbl rows : List Assoc) : Except DbErr (List Assoc) :=
  if rows.Nodup ∧ ∀ r ∈ rows, r ∉ tbl then .ok (tbl ++ rows)
  else .error .uniqueViolation

/-- Lines 433-450, `DatabaseStorage.createProduct`: insert the product
row (with its server-assigned id and timestamps already part of `newP`),
then — only when the supplied list is non-empty — batch-insert one
association row per element of `categoryIds`, without deduplication. The
product insert has already committed when the association insert runs,
so a failing association insert leaves the product row behind. -/
def createProduct (s : StoreState) (newP : Product) (categoryIds : List String) :
    Except DbErr StoreState :=
  let s1 : StoreState := { s with products := s.products ++ [newP] }
  if categoryIds.length > 0 then
    match insertAssocRows s1.assocs (categoryIds.map (fun c => ⟨newP.id, c⟩)) with
    | .ok tbl => .ok { s1 with assocs := tbl }
    | .error e => .error e
  else .ok s1

/-- The partial field payload of an update (`Partial<InsertProduct>`):
`none` means the field is absent from the payload. -/
structure ProductPatch where
  name : Option String := none
  description : Option (Option String) := none
  price : Option ℚ := none
  stockQuantity : Option ℤ := none
  imageUrl : Option (Option String) := none
deriving DecidableEq, Repr

/-- `set({ ...product, updatedAt: sql`NOW()` })` applied to one row:
present fields overwrite, `updatedAt` is stamped with the current
time. -/
def applyPatch (p : Product) (patch : ProductPatch) (now : ℤ) : Product :=
  { p with
    name := patch.name.getD p.name
    description := patch.description.getD p.description
    price := patch.price.getD p.price
    stockQuantity := patch.stockQuantity.getD p.stockQuantity
    imageUrl := patch.imageUrl.getD p.imageUrl
    updatedAt := now }

/-- One database statement issued by the update path. -/
inductive DbOp where
  /-- `db.update(products).set(...).where(eq(products.id, id))` (line 453). -/
  | updateProductRow (id : String) (patch : ProductPatch) (now : ℤ)
  /-- `db.delete(productCategories).where(eq(productCategories.productId, id))` (line 461). -/
  | deleteAssocsOf (id : String)
  /-- `db.insert(productCategories).values(...)` (line 467). -/
  | insertAssocsOp (rows : List Assoc)
deriving DecidableEq, Repr

/-- Effect of one committed statement on the store. -/
def applyOp (s : StoreState) : DbOp → Except DbErr StoreState
  | .updateProductRow id patch now =>
    .ok { s with
      products := s.products.map (fun p => if p.id = id then applyPatch p patch now else p) }
  | .deleteAssocsOf id =>
    .ok { s with assocs := s.assocs.filter (fun a => !decide (a.productId = id)) }
  | .insertAssocsOp rows =>
    match insertAssocRows s.assocs rows with
    | .ok tbl => .ok { s with assocs := tbl }
    | .error e => .error e

/-- Run statements in order, each committing individually (no enclosing
transaction exists in the source): a failing statement stops the run but
the effects of the preceding statements remain. -/
def runOps (s : StoreState) : List DbOp → StoreState × Option DbErr
  | [] => (s, none)
  | op :: rest =>
    match applyOp s op with
    | .ok s' => runOps s' rest
    | .error e => (s, some e)

/-- Lines 452-477, `DatabaseStorage.updateProduct`, as the list of
statements it awaits in order: the product-row update always; then, only
when `categoryIds` is not `undefined`, the delete of all existing
association rows of the product, followed — only when the new list is
non-empty — by the batch insert of the new rows. -/
def updateProductOps (id : String) (patch : ProductPatch) (now : ℤ)
    (categoryIds : Option (List String)) : List DbOp :=
  [.updateProductRow id patch now] ++
    match categoryIds with
    | none => []
    | some l =>
      [.deleteAssocsOf id] ++
        if l.length > 0 then [.insertAssocsOp (l.map (fun c => ⟨id, c⟩))] else []

/-- The store state after `updateProduct` has issued all its statements
(or stopped at a failing one). -/
def updateProduct (s : StoreState) (id : String) (patch : ProductPatch) (now : ℤ)
    (categoryIds : Option (List String)) : StoreState :=
  (runOps s (updateProductOps id patch now categoryIds)).1

/-- Line 119 of the `PUT /api/products/:id` handler:
`Array.isArray(categoryIds) ? categoryIds : undefined` — only an array
value in the body reaches the storage layer; anything else (including an
omitted field) becomes `undefined`. -/
def putCategoryIdsArg : Option QueryVal → Option (List String)
  | some (.arr l) => some l
  | _ => none

/-- Lines 479-481, `DatabaseStorage.deleteProduct`:
`db.delete(products).where(eq(products.id, id))`. The removal of the
product's association rows is modelled from the spec (§6:
"foreign-key-cascade-on-delete semantics in both directions"); the
schema module carrying the cascade declaration is not among the provided
sources. The delete matches zero or more rows and never fails on a
missing id. -/
def deleteProduct (s : StoreState) (id : String) : StoreState :=
  { s with
    products := s.products.filter (fun p => !decide (p.id = id))
    assocs := s.assocs.filter (fun a => !decide (a.productId = id)) }

/-- Lines 133-141, the `DELETE /api/products/:id` handler: await
`storage.deleteProduct` and respond 204; only a thrown store error gives
500, and `deleteProduct` throws nothing on a missing id. -/
def deleteProductRoute (s : StoreState) (id : String) : ℕ × StoreState :=
  (204, deleteProduct s id)

/-! ## Concrete fixtures used by the claim theorems -/

/-- A product row with the given id and timestamp. -/
def mkProduct (id : String) (t : ℤ) : Product :=
  { id := id, name := id, description := none, price := 5, stockQuantity := 3,
    imageUrl := none, createdAt := t, updatedAt := t }

def prodP1 : Product := mkProduct "p1" 0

/-- One product associated with the two categories `c1` and `c2`. -/
def stateTwoCats : StoreState :=
  { products := [prodP1], categories := [], assocs := [⟨"p1", "c1"⟩, ⟨"p1", "c2"⟩] }

/-- A category filter matching both of `prodP1`'s association rows. -/
def paramsTwoCats : GetProductsParams := { categoryIds := some ["c1", "c2"] }

/-- One product associated with category `c1` only. -/
def stateOneCat : StoreState :=
  { products := [prodP1], categories := [], assocs := [⟨"p1", "c1"⟩] }

/-- Two products tied on `createdAt` (both 0) with distinct ids. -/
def prodT1 : Product := mkProduct "t1" 0
def prodT2 : Product := mkProduct "t2" 0

def stateTied : StoreState :=
  { products := [prodT1, prodT2], categories := [], assocs := [] }

/-- Two products with distinct `createdAt` values. -/
def prodU1 : Product := mkProduct "u1" 1
def prodU2 : Product := mkProduct "u2" 0

def stateUntied : StoreState :=
  { products := [prodU1, prodU2], categories := [], assocs := [] }

/-- Default query parameters (page 1, limit 10, sort `createdAt desc`,
no filters). -/
def paramsDefault : GetProductsParams := {}

/-- The empty store. -/
def stateEmpty : StoreState := { products := [], categories := [], assocs := [] }

/-! ## Helper lemmas -/

theorem jsParseFloatOpt_none : jsParseFloatOpt none = none := rfl

theorem jsParseIntNumOpt_none : jsParseIntNumOpt none = none := rfl

/-! ## Claims -/

/-- C1: the claim asserts that `getProducts` returns a distinct-id total
AND a duplicate-free page. The total half holds (the count query is
`count(distinct products.id)`), but the row query performs the category
join without `DISTINCT`: on a store with one product holding two
qualifying association rows and the filter `categoryIds = [c1, c2]`,
every valid execution returns the page `[prodP1, prodP1]` — the same
product twice — while reporting `total = 1`. This theorem evaluates the
embedded code at that failing input. -/
theorem c1_join_fanout_duplicates_page :
    totalCount stateTwoCats paramsTwoCats = 1 ∧
    fanoutRows stateTwoCats paramsTwoCats = [prodP1, prodP1] ∧
    GetProductsSpec stateTwoCats paramsTwoCats ([prodP1, prodP1], 1) ∧
    ∀ res, GetProductsSpec stateTwoCats paramsTwoCats res → res = ([prodP1, prodP1], 1) := by
  have hf : fanoutRows stateTwoCats paramsTwoCats = [prodP1, prodP1] := by decide
  have ht : totalCount stateTwoCats paramsTwoCats = 1 := by decide
  refine ⟨ht, hf, ⟨.createdAt, rfl, by decide, by decide,
    [prodP1, prodP1], by rw [hf], by decide, by decide, ht⟩, ?_⟩
  rintro ⟨l, n⟩ ⟨col, hcol, -, -, sorted, hperm, -, h1, h2⟩
  rw [hf] at hperm
  have hrep : ([prodP1, prodP1] : List Product) = List.replicate 2 prodP1 := rfl
  rw [hrep] at hperm
  have hsorted : sorted = List.replicate 2 prodP1 := List.perm_replicate.mp hperm
  subst hsorted
  have hn : n = 1 := by simpa [ht] using h2
  have hl : l = [prodP1, prodP1] := by
    simpa using h1
  simp [hl, hn]

/-- C2: the PUT route maps an omitted body field to `undefined` and an
empty array to `[]`; `updateProduct` with `categoryIds` omitted
(`undefined`) issues no statement against the association table, leaving
it unchanged, while `categoryIds = []` issues the delete of the
product's rows and no insert, leaving the product with zero
associations. -/
theorem c2_update_omitted_vs_empty (s : StoreState) (id : String)
    (patch : ProductPatch) (now : ℤ) :
    putCategoryIdsArg none = none ∧
    putCategoryIdsArg (some (.arr [])) = some [] ∧
    (updateProduct s id patch now none).assocs = s.assocs ∧
    assocsOf (updateProduct s id patch now (some [])) id = [] := by
  refine ⟨rfl, rfl, ?_, ?_⟩
  · simp [updateProduct, updateProductOps, runOps, applyOp]
  · simp only [updateProduct, updateProductOps, runOps, applyOp, assocsOf]
    simp [List.filter_filter]

/-- C3: the claim asserts the delete-existing and insert-new association
steps form one atomic unit. The source wraps them in no transaction:
each statement is a separately-awaited, individually-committed call, so
the state after the delete commits is an observation point. Updating a
product that holds association `c1` to the non-empty set `[c2]` issues
three statements, and after the first two the product has zero
associations even though the write's intent was non-empty — refuting
atomicity at this concrete input (the final state is correct when every
statement succeeds). -/
theorem c3_no_transaction_zero_assoc_window :
    (["c2"] : List String) ≠ [] ∧
    assocsOf stateOneCat "p1" = [⟨"p1", "c1"⟩] ∧
    updateProductOps "p1" {} 5 (some ["c2"]) =
      [.updateProductRow "p1" {} 5, .deleteAssocsOf "p1", .insertAssocsOp [⟨"p1", "c2"⟩]] ∧
    assocsOf (runOps stateOneCat ((updateProductOps "p1" {} 5 (some ["c2"])).take 2)).1 "p1"
      = [] ∧
    assocsOf (updateProduct stateOneCat "p1" {} 5 (some ["c2"])) "p1" = [⟨"p1", "c2"⟩] := by
  refine ⟨by decide, by decide, by decide, by decide, by decide⟩

/-- C8: the claim asserts `createProduct` applies set semantics to a
category-id list with duplicates, succeeding with one row per distinct
id. The source maps the list to insert values without deduplication, and
under the association table's composite-unique constraint the batch
insert of two identical `(productId, categoryId)` rows fails: on the
empty store, creating a product with `categoryIds = ["c1", "c1"]`
returns a store error, not success. -/
theorem c8_duplicate_ids_fail :
    createProduct stateEmpty (mkProduct "p9" 0) ["c1", "c1"] = .error .uniqueViolation := rfl

/-- C8 (amended): `createProduct` inserts one association row per
element of the supplied list, without deduplication. When the supplied
ids are distinct (and fresh for that product), the create succeeds and
stores exactly one row per id; when the list contains a duplicate id,
the batch insert violates the composite-unique constraint and the
operation fails with a store error instead of silently applying set
semantics. -/
theorem c8_amended_no_dedup (s : StoreState) (newP : Product) (ids : List String) :
    (ids.Nodup → (∀ c ∈ ids, (⟨newP.id, c⟩ : Assoc) ∉ s.assocs) →
      createProduct s newP ids = .ok
        { products := s.products ++ [newP], categories := s.categories,
          assocs := s.assocs ++ ids.map (fun c => ⟨newP.id, c⟩) }) ∧
    (¬ ids.Nodup → createProduct s newP ids = .error .uniqueViolation) := by
  have hinj : Function.Injective (fun c => (⟨newP.id, c⟩ : Assoc)) := by
    intro a b h
    simpa using congrArg Assoc.categoryId h
  constructor
  · intro hnd hfresh
    match ids, hnd with
    | [], _ => simp [createProduct]
    | c :: rest, hnd =>
      have hcond : ((c :: rest).map (fun c => (⟨newP.id, c⟩ : Assoc))).Nodup ∧
          ∀ r ∈ (c :: rest).map (fun c => (⟨newP.id, c⟩ : Assoc)), r ∉ s.assocs := by
        constructor
        · exact (List.nodup_map_iff hinj).mpr hnd
        · intro r hr
          rcases List.mem_map.mp hr with ⟨c', hc', rfl⟩
          exact hfresh c' hc'
      simp only [createProduct, insertAssocRows, List.length_cons, if_pos (Nat.succ_pos _),
        if_pos hcond]
  · intro hnd
    have hne : ids ≠ [] := by rintro rfl; exact hnd List.nodup_nil
    have hlen : ids.length > 0 := List.length_pos.mpr hne
    have hcond : ¬ ((ids.map (fun c => (⟨newP.id, c⟩ : Assoc))).Nodup ∧
        ∀ r ∈ ids.map (fun c => (⟨newP.id, c⟩ : Assoc)), r ∉ s.assocs) := by
      rintro ⟨hmap, -⟩
      exact hnd (List.Nodup.of_map _ hmap)
    simp only [createProduct, insertAssocRows, if_pos hlen, if_neg hcond]

/-- C8 amended witness: the amended theorem applied at concrete inputs —
creating with the distinct list `["c1"]` on the empty store succeeds and
stores one association row, and creating with `["c1", "c1"]` fails. -/
theorem c8_amended_no_dedup_witness :
    createProduct stateEmpty (mkProduct "p9" 0) ["c1"] = .ok
      { products := [mkProduct "p9" 0], categories := [],
        assocs := [⟨"p9", "c1"⟩] } ∧
    createProduct stateEmpty (mkProduct "p9" 0) ["c1", "c1"] = .error .uniqueViolation :=
  ⟨(c8_amended_no_dedup stateEmpty (mkProduct "p9" 0) ["c1"]).1 (by decide) (by decide),
   (c8_amended_no_dedup stateEmpty (mkProduct "p9" 0) ["c1", "c1"]).2 (by decide)⟩

/-- C10: `deleteProduct` on an id with no matching product row issues a
delete that matches nothing, raises no `NotFound` (the storage method
never inspects the match count), leaves the store unchanged (the second
hypothesis — no association row referencing the id — is the referential
integrity invariant, which holds of every store reachable through the
cascade-on-delete schema), and the route responds 204 exactly as for an
existing product. -/
theorem c10_delete_missing_id_noop (s : StoreState) (id : String)
    (hp : ∀ p ∈ s.products, p.id ≠ id) (ha : ∀ a ∈ s.assocs, a.productId ≠ id) :
    deleteProductRoute s id = (204, s) := by
  have h1 : s.products.filter (fun p => !decide (p.id = id)) = s.products :=
    List.filter_eq_self.mpr (fun p hps => by simp [hp p hps])
  have h2 : s.assocs.filter (fun a => !decide (a.productId = id)) = s.assocs :=
    List.filter_eq_self.mpr (fun a has => by simp [ha a has])
  simp [deleteProductRoute, deleteProduct, h1, h2]

/-- C10 witness: deleting the absent id `zz` from the one-product store
leaves it unchanged and yields 204. -/
theorem c10_delete_missing_id_noop_witness :
    deleteProductRoute stateOneCat "zz" = (204, stateOneCat) :=
  c10_delete_missing_id_noop stateOneCat "zz" (by decide) (by decide)

/-- The parameter record produced for `sortOrder=bogus` with everything
else absent. -/
def paramsBogusOrder : GetProductsParams := { sortOrder := "bogus" }

/-- C4 counterexample: `bogus` is outside `{asc, desc}`, yet the read
path does not reject the request — parsing succeeds (no 400 is ever
produced for sort parameters) and the query executes on the empty store,
returning the 200 payload `{products: [], total: 0}`. -/
theorem c4_invalid_sort_order_not_rejected :
    ("bogus" ≠ "asc" ∧ "bogus" ≠ "desc") ∧
    parseProductsQuery { sortOrder := some "bogus" } = .ok paramsBogusOrder ∧
    GetProductsSpec stateEmpty paramsBogusOrder ([], 0) := by
  have hf : fanoutRows stateEmpty paramsBogusOrder = [] := by decide
  exact ⟨by decide, rfl,
    ⟨.createdAt, rfl, by decide, by decide, [], by rw [hf], by simp, rfl, by decide⟩⟩

/-- C4 (amended): absent `sortBy`/`sortOrder` default to `createdAt` and
`desc`, but no rejection happens for out-of-range values: parsing always
succeeds regardless of the two sort parameters (so no InvalidFilter/400
exists on this path); a `sortBy` outside the enumerated set makes the
sort-column lookup yield no column, and such a query has no valid
execution (the storage call throws, surfacing as a 500 server error,
still not a 400); and any `sortOrder` other than `asc` — invalid values
included — is silently executed exactly as `desc`. -/
theorem c4_amended_sort_params_not_validated :
    (∀ sb so, parseProductsQuery { sortBy := sb, sortOrder := so } =
      .ok { sortBy := jsStrOr sb "createdAt", sortOrder := jsStrOr so "desc" }) ∧
    (∀ sb, sb ∉ (["name", "price", "stock", "createdAt"] : List String) →
      sortColumnOf sb = none) ∧
    (∀ s params res, sortColumnOf params.sortBy = none → ¬ GetProductsSpec s params res) ∧
    (∀ s params res, params.sortOrder ≠ "asc" →
      (GetProductsSpec s params res ↔
        GetProductsSpec s { params with sortOrder := "desc" } res)) := by
  refine ⟨fun sb so => rfl, ?_, ?_, ?_⟩
  · intro sb h
    unfold sortColumnOf
    split <;> simp_all
  · rintro s params res h ⟨col, hcol, -⟩
    rw [h] at hcol
    exact Option.noConfusion hcol
  · intro s params res h
    have hord : ∀ col : SortCol, ordRel col params.sortOrder = ordRel col "desc" := by
      intro col
      funext p q
      simp [ordRel, h]
    constructor
    · rintro ⟨col, hcol, h1, h2, sorted, hperm, hsort, hr1, hr2⟩
      rw [hord col] at hsort
      exact ⟨col, hcol, h1, h2, sorted, hperm, hsort, hr1, hr2⟩
    · rintro ⟨col, hcol, h1, h2, sorted, hperm, hsort, hr1, hr2⟩
      rw [← hord col] at hsort
      exact ⟨col, hcol, h1, h2, sorted, hperm, hsort, hr1, hr2⟩

/-- C4 amended witness: the amended theorem applied at concrete inputs —
defaults for absent parameters, `bogus` outside the sort-key set,
no valid execution for `sortBy = bogus`, and `sortOrder = bogus` run as
`desc`. -/
theorem c4_amended_sort_params_not_validated_witness :
    parseProductsQuery { sortBy := some "name", sortOrder := none } =
      .ok { sortBy := "name", sortOrder := "desc" } ∧
    sortColumnOf "bogus" = none ∧
    ¬ GetProductsSpec stateEmpty { sortBy := "bogus" } ([], 0) ∧
    (GetProductsSpec stateEmpty paramsBogusOrder ([], 0) ↔
      GetProductsSpec stateEmpty { paramsBogusOrder with sortOrder := "desc" } ([], 0)) :=
  ⟨c4_amended_sort_params_not_validated.1 (some "name") none,
   c4_amended_sort_params_not_validated.2.1 "bogus" (by decide),
   c4_amended_sort_params_not_validated.2.2.1 stateEmpty { sortBy := "bogus" } ([], 0) rfl,
   c4_amended_sort_params_not_validated.2.2.2 stateEmpty paramsBogusOrder ([], 0) (by decide)⟩

/-- The parameter record produced for `minPrice=Infinity` with
everything else absent. -/
def paramsInfPrice : GetProductsParams := { minPrice := some .inf }

/-- C5 counterexample: `minPrice=Infinity` parses to a non-finite,
non-`NaN` number; the validation (`isNaN || < 0`) accepts it, so the
listing does not fail with an InvalidFilter client error — parsing
succeeds and the query executes on the empty store. -/
theorem c5_infinity_passes_validation :
    jsParseFloat "Infinity" = .inf ∧
    JsNum.inf ≠ JsNum.nan ∧ (∀ q : ℚ, JsNum.inf ≠ JsNum.fin q) ∧
    parseProductsQuery { minPrice := some "Infinity" } = .ok paramsInfPrice ∧
    GetProductsSpec stateEmpty paramsInfPrice ([], 0) := by
  have hf : fanoutRows stateEmpty paramsInfPrice = [] := by decide
  exact ⟨by decide, by decide, fun q h => JsNum.noConfusion h, rfl,
    ⟨.createdAt, rfl, by decide, by decide, [], by rw [hf], by simp, rfl, by decide⟩⟩

/-- C5 (amended): a supplied range value that parses to `NaN` or to a
negative number is rejected with the field-specific 400 message before
any query executes, and a min exceeding its max is likewise rejected;
but `non-finite` must weaken to `NaN`, since `Infinity` passes the
check (`isNaN(x) || x < 0` is false for `Infinity`). -/
theorem c5_amended_nan_or_negative_rejected :
    (∀ n : JsNum, invalidNum n = true ↔ (n = .nan ∨ jsLt n (.fin 0) = true)) ∧
    (∀ v n, jsParseFloatOpt (some v) = some n → invalidNum n = true →
      parseProductsQuery { minPrice := some v } = .error "Invalid minPrice value") ∧
    (∀ v n, jsParseFloatOpt (some v) = some n → invalidNum n = true →
      parseProductsQuery { maxPrice := some v } = .error "Invalid maxPrice value") ∧
    (∀ v n, jsParseIntNumOpt (some v) = some n → invalidNum n = true →
      parseProductsQuery { minStock := some v } = .error "Invalid minStock value") ∧
    (∀ v n, jsParseIntNumOpt (some v) = some n → invalidNum n = true →
      parseProductsQuery { maxStock := some v } = .error "Invalid maxStock value") ∧
    (∀ a b x y, jsParseFloatOpt (some a) = some x → jsParseFloatOpt (some b) = some y →
      invalidNum x = false → invalidNum y = false → jsGt x y = true →
      parseProductsQuery { minPrice := some a, maxPrice := some b } =
        .error "minPrice cannot be greater than maxPrice") ∧
    (∀ a b x y, jsParseIntNumOpt (some a) = some x → jsParseIntNumOpt (some b) = some y →
      invalidNum x = false → invalidNum y = false → jsGt x y = true →
      parseProductsQuery { minStock := some a, maxStock := some b } =
        .error "minStock cannot be greater than maxStock") := by
  refine ⟨?_, ?_, ?_, ?_, ?_, ?_, ?_⟩
  · intro n
    cases n <;> simp [invalidNum, jsIsNaN]
  · intro v n hv hbad
    simp [parseProductsQuery, hv, hbad, jsParseFloatOpt_none, jsParseIntNumOpt_none]
  · intro v n hv hbad
    simp [parseProductsQuery, hv, hbad, jsParseFloatOpt_none, jsParseIntNumOpt_none]
  · intro v n hv hbad
    simp [parseProductsQuery, hv, hbad, jsParseFloatOpt_none, jsParseIntNumOpt_none]
  · intro v n hv hbad
    simp [parseProductsQuery, hv, hbad, jsParseFloatOpt_none, jsParseIntNumOpt_none]
  · intro a b x y ha hb hx hy hgt
    simp [parseProductsQuery, ha, hb, hx, hy, hgt, jsParseFloatOpt_none, jsParseIntNumOpt_none]
  · intro a b x y ha hb hx hy hgt
    simp [parseProductsQuery, ha, hb, hx, hy, hgt, jsParseFloatOpt_none, jsParseIntNumOpt_none]

/-- C5 amended witness: the amended theorem applied at concrete inputs —
`minPrice=-3` gives its field 400, the boundary `minPrice=10,maxPrice=5`
gives the range 400, and `minStock=abc` (NaN) gives its field 400. -/
theorem c5_amended_nan_or_negative_rejected_witness :
    parseProductsQuery { minPrice := some "-3" } = .error "Invalid minPrice value" ∧
    parseProductsQuery { minPrice := some "10", maxPrice := some "5" } =
      .error "minPrice cannot be greater than maxPrice" ∧
    parseProductsQuery { minStock := some "abc" } = .error "Invalid minStock value" :=
  ⟨c5_amended_nan_or_negative_rejected.2.1 "-3" (.fin (-3)) rfl (by decide),
   c5_amended_nan_or_negative_rejected.2.2.2.2.2.1 "10" "5" (.fin 10) (.fin 5)
     rfl rfl (by decide) (by decide) (by decide),
   c5_amended_nan_or_negative_rejected.2.2.2.1 "abc" .nan rfl (by decide)⟩

/-- The parameter record produced for `page=-5` with everything else
absent. -/
def paramsNegPage : GetProductsParams := { page := -5 }

/-- C6 counterexample: `page=-5` parses to `-5`, which is truthy, so the
`|| 1` default does not apply: the normalized page is `-5` (not at least
1) and the computed offset `(page-1)*limit = -60` is negative. -/
theorem c6_negative_page_not_clamped :
    parseProductsQuery { page := some "-5" } = .ok paramsNegPage ∧
    paramsNegPage.page = -5 ∧ paramsNegPage.limit = 10 ∧
    ¬ (1 ≤ paramsNegPage.page) ∧
    (paramsNegPage.page - 1) * paramsNegPage.limit = -60 ∧
    (paramsNegPage.page - 1) * paramsNegPage.limit < 0 := by
  exact ⟨rfl, rfl, rfl, by decide, by decide, by decide⟩

/-- C6 (amended): `page` normalizes to the default 1 — and `limit` to
10 — exactly when the parameter is absent or `parseInt` yields `NaN` or
`0` (all falsy); any other parsed integer, negative values included,
passes through unchanged, so the offset `(page-1)*limit` can be
negative, and a query with a negative offset has no valid execution
(PostgreSQL rejects a negative `OFFSET`). -/
theorem c6_amended_page_limit_defaults :
    (parseProductsQuery {} = .ok {}) ∧
    (∀ v, (jsParseIntQ v = none ∨ jsParseIntQ v = some 0) →
      parseProductsQuery { page := some v } = .ok {} ∧
      parseProductsQuery { limit := some v } = .ok {}) ∧
    (∀ v n, jsParseIntQ v = some n → n ≠ 0 →
      parseProductsQuery { page := some v } = .ok { page := n } ∧
      parseProductsQuery { limit := some v } = .ok { limit := n }) ∧
    (∀ s params res, (params.page - 1) * params.limit < 0 →
      ¬ GetProductsSpec s params res) := by
  refine ⟨rfl, ?_, ?_, ?_⟩
  · intro v hv
    rcases hv with h | h <;>
      exact ⟨by simp only [parseProductsQuery, jsParseIntOr, h]; rfl,
        by simp only [parseProductsQuery, jsParseIntOr, h]; rfl⟩
  · intro v n h hn
    exact ⟨by simp only [parseProductsQuery, jsParseIntOr, h, if_neg hn]; rfl,
      by simp only [parseProductsQuery, jsParseIntOr, h, if_neg hn]; rfl⟩
  · rintro s params res hneg ⟨col, -, -, hoff, -⟩
    omega

/-- C6 amended witness: the amended theorem applied at concrete inputs —
`page=abc` and `page=0` both normalize to 1, `page=7` passes through,
and the `page=-5` parameters admit no valid execution. -/
theorem c6_amended_page_limit_defaults_witness :
    parseProductsQuery { page := some "abc" } = .ok {} ∧
    parseProductsQuery { page := some "0" } = .ok {} ∧
    parseProductsQuery { page := some "7" } = .ok { page := 7 } ∧
    ¬ GetProductsSpec stateEmpty paramsNegPage ([], 0) :=
  ⟨(c6_amended_page_limit_defaults.2.1 "abc" (.inl rfl)).1,
   (c6_amended_page_limit_defaults.2.1 "0" (.inr rfl)).1,
   (c6_amended_page_limit_defaults.2.2.1 "7" 7 rfl (by decide)).1,
   c6_amended_page_limit_defaults.2.2.2 stateEmpty paramsNegPage ([], 0) (by decide)⟩

/-- C7: when the plural `categoryIds` list is non-empty it is the
category filter — the single `categoryId` is ignored entirely (the rows
and the total are invariant under changing it) — and a product row
appears in the queried row set iff it passes the other filters and has
an association row whose category id lies in that list; when
`categoryIds` is empty or absent and a non-blank single `categoryId` is
present, the filter is the singleton of that id, with the same
membership reading. -/
theorem c7_category_filter_precedence (s : StoreState) (params : GetProductsParams) :
    (∀ l, params.categoryIds = some l → l ≠ [] →
      catFilter params = some l ∧
      (∀ cid, fanoutRows s { params with categoryId := cid } = fanoutRows s params ∧
        totalCount s { params with categoryId := cid } = totalCount s params) ∧
      (∀ p, p ∈ fanoutRows s params ↔
        p ∈ s.products ∧ prodConds params p = true ∧
          ∃ a ∈ s.assocs, a.productId = p.id ∧ a.categoryId ∈ l)) ∧
    (∀ c, (params.categoryIds = none ∨ params.categoryIds = some []) →
      params.categoryId = some c → c ≠ "" →
      catFilter params = some [c] ∧
      (∀ p, p ∈ fanoutRows s params ↔
        p ∈ s.products ∧ prodConds params p = true ∧
          ∃ a ∈ s.assocs, a.productId = p.id ∧ a.categoryId = c)) := by
  constructor
  · intro l hl hne
    have hcf : catFilter params = some l := by
      simp [catFilter, categoriesToFilter, hl, hne]
    have hrows : ∀ cid, fanoutRows s { params with categoryId := cid } = fanoutRows s params := by
      intro cid
      have hcf' : catFilter { params with categoryId := cid } = some l := by
        simp [catFilter, categoriesToFilter, hl, hne]
      simp only [fanoutRows, hcf, hcf']
      rfl
    refine ⟨hcf, fun cid => ⟨hrows cid, by simp [totalCount, hrows cid]⟩, ?_⟩
    intro p
    simp only [fanoutRows, hcf, List.mem_flatMap, List.mem_map, List.mem_filter,
      Bool.and_eq_true, decide_eq_true_eq]
    constructor
    · rintro ⟨q, hq, a, ⟨⟨ha, ⟨hpid, hcat⟩, hconds⟩, rfl⟩⟩
      exact ⟨hq, hconds, a, ha, hpid, hcat⟩
    · rintro ⟨hp, hconds, a, ha, hpid, hcat⟩
      exact ⟨p, hp, a, ⟨⟨ha, ⟨hpid, hcat⟩, hconds⟩, rfl⟩⟩
  · intro c hids hc hcne
    have hcf : catFilter params = some [c] := by
      rcases hids with h | h <;> simp [catFilter, categoriesToFilter, singleCategoryOf, h, hc, hcne]
    refine ⟨hcf, ?_⟩
    intro p
    simp only [fanoutRows, hcf, List.mem_flatMap, List.mem_map, List.mem_filter,
      Bool.and_eq_true, decide_eq_true_eq, List.mem_singleton]
    constructor
    · rintro ⟨q, hq, a, ⟨⟨ha, ⟨hpid, hcat⟩, hconds⟩, rfl⟩⟩
      exact ⟨hq, hconds, a, ha, hpid, hcat⟩
    · rintro ⟨hp, hconds, a, ha, hpid, hcat⟩
      exact ⟨p, hp, a, ⟨⟨ha, ⟨hpid, hcat⟩, hconds⟩, rfl⟩⟩

/-- C7 witness: the theorem applied at a concrete input — on the
two-association store with filter `categoryIds = [c1, c2]`, the chosen
filter is that list, the rows are invariant under a supplied single
`categoryId = zz`, and the product appears in the row set. -/
theorem c7_category_filter_precedence_witness :
    catFilter paramsTwoCats = some ["c1", "c2"] ∧
    fanoutRows stateTwoCats { paramsTwoCats with categoryId := some "zz" } =
      fanoutRows stateTwoCats paramsTwoCats ∧
    (prodP1 ∈ fanoutRows stateTwoCats paramsTwoCats ↔
      prodP1 ∈ stateTwoCats.products ∧ prodConds paramsTwoCats prodP1 = true ∧
        ∃ a ∈ stateTwoCats.assocs, a.productId = prodP1.id ∧ a.categoryId ∈ (["c1", "c2"] : List String)) :=
  ⟨((c7_category_filter_precedence stateTwoCats paramsTwoCats).1 ["c1", "c2"] rfl (by decide)).1,
   (((c7_category_filter_precedence stateTwoCats paramsTwoCats).1 ["c1", "c2"] rfl (by decide)).2.1 (some "zz")).1,
   ((c7_category_filter_precedence stateTwoCats paramsTwoCats).1 ["c1", "c2"] rfl (by decide)).2.2 prodP1⟩

/-- Two sorted arrangements of the same multiset agree when the sort
relation is antisymmetric on the elements involved. -/
theorem sorted_perm_unique {α : Type} (r : α → α → Prop) :
    ∀ (l1 l2 : List α), l1.Perm l2 → List.Sorted r l1 → List.Sorted r l2 →
      (∀ a ∈ l1, ∀ b ∈ l1, r a b → r b a → a = b) → l1 = l2 := by
  intro l1
  induction l1 with
  | nil =>
    intro l2 hperm _ _ _
    exact (hperm.nil_eq).symm ▸ rfl
  | cons a t1 ih =>
    intro l2 hperm hs1 hs2 hanti
    cases l2 with
    | nil => exact absurd hperm.symm.nil_eq (by simp)
    | cons b t2 =>
      have hab : a = b := by
        by_cases h : a = b
        · exact h
        · have ha2 : a ∈ b :: t2 := hperm.mem_iff.mp (List.mem_cons_self a t1)
          have hb1 : b ∈ a :: t1 := hperm.mem_iff.mpr (List.mem_cons_self b t2)
          have hat2 : a ∈ t2 := by
            rcases List.mem_cons.mp ha2 with h' | h'
            · exact absurd h' h
            · exact h'
          have hbt1 : b ∈ t1 := by
            rcases List.mem_cons.mp hb1 with h' | h'
            · exact absurd h'.symm h
            · exact h'
          have hrab : r a b := List.rel_of_sorted_cons hs1 b hbt1
          have hrba : r b a := List.rel_of_sorted_cons hs2 a hat2
          exact hanti a (List.mem_cons_self a t1) b (List.mem_cons_of_mem a hbt1) hrab hrba
      subst hab
      have hperm' : t1.Perm t2 := hperm.cons_inv
      have heq : t1 = t2 := ih t2 hperm' hs1.of_cons hs2.of_cons
        (fun x hx y hy => hanti x (List.mem_cons_of_mem a hx) y (List.mem_cons_of_mem a hy))
      rw [heq]

/-- C9 counterexample: the query orders by the single sort column only
(no secondary tie-break on id exists in the source), so on a store with
two products tied on `createdAt`, both result orders satisfy the
executed query's ordering constraint — the row order is not determined,
and repeated executions may legitimately return different pages. -/
theorem c9_tie_order_not_determined :
    prodT1.createdAt = prodT2.createdAt ∧ prodT1 ≠ prodT2 ∧
    GetProductsSpec stateTied paramsDefault ([prodT1, prodT2], 2) ∧
    GetProductsSpec stateTied paramsDefault ([prodT2, prodT1], 2) ∧
    (([prodT1, prodT2], 2) : List Product × ℕ) ≠ ([prodT2, prodT1], 2) := by
  have hf : fanoutRows stateTied paramsDefault = [prodT1, prodT2] := by decide
  refine ⟨by decide, by decide, ?_, ?_, by decide⟩
  · exact ⟨.createdAt, rfl, by decide, by decide, [prodT1, prodT2], by rw [hf], by decide,
      rfl, by decide⟩
  · exact ⟨.createdAt, rfl, by decide, by decide, [prodT2, prodT1], by rw [hf]; decide,
      by decide, rfl, by decide⟩

/-- C9 (amended): the executed order is deterministic only when the
chosen sort column is antisymmetric on the filtered rows (no two
distinct rows tie): under that hypothesis any two valid executions of
the same query on the same store return the identical result. With ties
the order is unconstrained, as the counterexample shows — the source
imposes no secondary order on id. -/
theorem c9_amended_deterministic_when_no_ties (s : StoreState) (params : GetProductsParams)
    (col : SortCol) (res1 res2 : List Product × ℕ)
    (hcol : sortColumnOf params.sortBy = some col)
    (hanti : ∀ p ∈ fanoutRows s params, ∀ q ∈ fanoutRows s params,
      keyLe col p q → keyLe col q p → p = q)
    (h1 : GetProductsSpec s params res1) (h2 : GetProductsSpec s params res2) :
    res1 = res2 := by
  obtain ⟨col1, hcol1, -, -, s1, hp1, hs1, hr11, hr12⟩ := h1
  obtain ⟨col2, hcol2, -, -, s2, hp2, hs2, hr21, hr22⟩ := h2
  have hc1 : col1 = col := by rw [hcol] at hcol1; exact (Option.some.inj hcol1).symm
  have hc2 : col2 = col := by rw [hcol] at hcol2; exact (Option.some.inj hcol2).symm
  rw [hc1] at hs1
  rw [hc2] at hs2
  have hanti' : ∀ a ∈ s1, ∀ b ∈ s1,
      ordRel col params.sortOrder a b → ordRel col params.sortOrder b a → a = b := by
    intro a ha b hb hab hba
    have ha' := hp1.mem_iff.mp ha
    have hb' := hp1.mem_iff.mp hb
    unfold ordRel at hab hba
    by_cases h : params.sortOrder = "asc"
    · rw [if_pos h] at hab hba
      exact hanti a ha' b hb' hab hba
    · rw [if_neg h] at hab hba
      exact hanti a ha' b hb' hba hab
  have hseq : s1 = s2 :=
    sorted_perm_unique (ordRel col params.sortOrder) s1 s2 (hp1.trans hp2.symm) hs1 hs2 hanti'
  subst hseq
  have e1 : res1.1 = res2.1 := by rw [hr11, hr21]
  have e2 : res1.2 = res2.2 := by rw [hr12, hr22]
  exact Prod.ext e1 e2

/-- C9 amended witness: the amended theorem applied at a concrete
input — on the store whose two products have distinct `createdAt`
values, a valid execution exists and the theorem pins any execution to
it. -/
theorem c9_amended_deterministic_when_no_ties_witness :
    GetProductsSpec stateUntied paramsDefault ([prodU1, prodU2], 2) ∧
    (([prodU1, prodU2], 2) : List Product × ℕ) = ([prodU1, prodU2], 2) := by
  have hf : fanoutRows stateUntied paramsDefault = [prodU1, prodU2] := by decide
  have hspec : GetProductsSpec stateUntied paramsDefault ([prodU1, prodU2], 2) :=
    ⟨.createdAt, rfl, by decide, by decide, [prodU1, prodU2], by rw [hf], by decide, rfl, by decide⟩
  exact ⟨hspec, c9_amended_deterministic_when_no_ties stateUntied paramsDefault .createdAt
    ([prodU1, prodU2], 2) ([prodU1, prodU2], 2) rfl (by rw [hf]; decide) hspec hspec⟩

/-- C2 witness: the theorem applied at a concrete input — updating `p1`
with `categoryIds` omitted keeps its association row; updating with the
empty list removes it. -/
theorem c2_update_omitted_vs_empty_witness :
    (updateProduct stateOneCat "p1" {} 5 none).assocs = stateOneCat.assocs ∧
    assocsOf (updateProduct stateOneCat "p1" {} 5 (some [])) "p1" = [] :=
  ⟨(c2_update_omitted_vs_empty stateOneCat "p1" {} 5).2.2.1,
   (c2_update_omitted_vs_empty stateOneCat "p1" {} 5).2.2.2⟩
